import Mathlib

/-
  Shallow embedding of the CHIP-8 interpreter from src/chip8/src/interpreter.rs
  and the real-time scheduler from src/chip8/src/managed_interpreter.rs.

  Conventions:
  - Rust `u8` values are Nats kept below 256 by the operations themselves
    (wrapping arithmetic is `% 256`); `usize` is a Nat, with `usize`
    overflow modelled explicitly where the source checks it.
  - Rust panics (array indexing out of bounds, `unwrap` on a failed
    conversion) are the explicit outcome `StepResult.panicked`; recoverable
    errors are `StepResult.fail`.
  - Fixed-size Rust arrays are total functions `Nat → _`; every access whose
    index is not statically below the array length in the source is guarded,
    mirroring the bounds check Rust performs at the indexing site.
-/

namespace Chip8

def SCREEN_WIDTH : Nat := 64
def SCREEN_HEIGHT : Nat := 32

/-- Source `Address::DOMAIN_SIZE` (data module): addresses are 12-bit, so 4096. -/
def MEM_SIZE : Nat := 4096
def REG_SIZE : Nat := 16
def STACK_SIZE : Nat := 16
def KEYPAD_SIZE : Nat := 16
def KEYPAD_LAST : Nat := KEYPAD_SIZE - 1

/-- Largest value of a Rust `usize` (64-bit platform). -/
def USIZE_MAX : Nat := 18446744073709551615

/-- The crate's error enum. The variants are the ones constructed in
interpreter.rs (`Crashed`, `StackOverflow`, `StackUnderflow`, `InvalidKey`,
`UnknownOpCode`); `ConversionFailed` stands for the decode-time
range-validation error of the data module. Modelled from the spec: the error
module itself is not under src/, only its uses are. -/
inductive Error where
  | Crashed : Error
  | StackOverflow : Error
  | StackUnderflow : Error
  | InvalidKey : Nat → Error
  | UnknownOpCode : Nat → Error
  | ConversionFailed : Error
deriving DecidableEq, Repr

/-- Outcome of running a fallible piece of interpreter code: normal return,
recoverable error (`Err(...)` in the source), or a Rust panic. -/
inductive StepResult (α : Type) where
  | ok : α → StepResult α
  | fail : Error → StepResult α
  | panicked : StepResult α
deriving DecidableEq, Repr

def isOkR {α : Type} : StepResult α → Bool
  | .ok _ => true
  | _ => false

def isFailR {α : Type} : StepResult α → Bool
  | .fail _ => true
  | _ => false

/-- Pointwise update of a function-represented fixed array. -/
def upd {α : Type} (f : Nat → α) (i : Nat) (v : α) : Nat → α :=
  fun j => if j = i then v else f j

/-- The default backend (`ManagedPlatform` in managed_interpreter.rs).
The caller-supplied `FnMut() -> Word` random source is made deterministic
as a stream `randStream` consumed at position `randIdx`. The keypad's
`KeyEventKind` is a pressed flag. -/
structure ManagedPlatform where
  randStream : Nat → Nat
  randIdx : Nat
  frame_buffer : Nat → Nat → Bool
  delay_timer : Nat
  sound_timer : Nat
  keypad : Nat → Bool
  last_key : Option Nat

/-- Source `ManagedPlatform::new`. -/
def ManagedPlatform.new (rand : Nat → Nat) : ManagedPlatform :=
  { randStream := rand, randIdx := 0, frame_buffer := fun _ _ => false,
    delay_timer := 0, sound_timer := 0, keypad := fun _ => false,
    last_key := none }

def clear_screen (p : ManagedPlatform) : ManagedPlatform :=
  { p with frame_buffer := fun _ _ => false }

def is_key_down (p : ManagedPlatform) (k : Nat) : Bool := p.keypad k

/-- Source `Platform::get_random_word` on the default backend: one byte from the
deterministic stream. Modelled from the spec: the trait and the closure
contract ("produce one random byte") live outside src/. -/
def get_random_word (p : ManagedPlatform) : Nat × ManagedPlatform :=
  (p.randStream p.randIdx % 256, { p with randIdx := p.randIdx + 1 })

/-- Source `ManagedPlatform::draw_sprite`: wrap the origin, then XOR each set sprite
bit onto the frame buffer, skipping pixels out of bounds; report collision.
`Sprite::iter_pixels` is modelled from the spec ("each of the n sprite rows
is XORed, bit-by-bit"): row r, bit b (MSB first) maps to offset (b, r). -/
def draw_sprite (p : ManagedPlatform) (px py : Nat) (spr : Nat → Nat)
    (n : Nat) : ManagedPlatform × Bool :=
  let x0 := px % SCREEN_WIDTH
  let y0 := py % SCREEN_HEIGHT
  (List.range n).foldl
    (fun acc r =>
      (List.range 8).foldl
        (fun acc2 b =>
          if spr r / 2 ^ (7 - b) % 2 = 1 then
            let x := x0 + b
            let y := y0 + r
            if x < SCREEN_WIDTH && y < SCREEN_HEIGHT then
              ({ acc2.1 with frame_buffer :=
                  fun j i => if j = y && i = x then !(acc2.1.frame_buffer y x)
                             else acc2.1.frame_buffer j i },
               acc2.2 || acc2.1.frame_buffer y x)
            else acc2
          else acc2)
        acc)
    (p, false)

/-- CPU state of `Interpreter<P>`, specialised to the default backend. -/
structure Interp where
  platform : ManagedPlatform
  registers : Nat → Nat
  index_register : Nat
  memory : Nat → Nat
  pc : Nat
  sp : Nat
  call_stack : Nat → Nat

def Interp.empty : Interp :=
  { platform := ManagedPlatform.new (fun _ => 0), registers := fun _ => 0,
    index_register := 0, memory := fun _ => 0, pc := 0, sp := 0,
    call_stack := fun _ => 0 }

/-- Source `Interpreter::new`. Modelled from the spec: the image module is not under
src/; the spec says an image supplies an entry point (initial pc) and the
loaded memory contents, the rest of the state starting at zero. -/
def Interp.new (entry : Nat) (mem : Nat → Nat) (p : ManagedPlatform) : Interp :=
  { platform := p, registers := fun _ => 0, index_register := 0,
    memory := mem, pc := entry, sp := 0, call_stack := fun _ => 0 }

/-- Source `ProgramCounter::next`: pc += 2 (no bound, no wraparound). -/
def pcNext (s : Interp) : Interp := { s with pc := s.pc + 2 }

/-- Source `ProgramCounter::skip`: pc += 4 (no bound, no wraparound). -/
def pcSkip (s : Interp) : Interp := { s with pc := s.pc + 4 }

def getReg (s : Interp) (x : Nat) : Nat := s.registers x

def setReg (s : Interp) (x v : Nat) : Interp :=
  { s with registers := upd s.registers x v }

/-- Source `Interpreter::extract_opcode`: big-endian word at pc, pc+1. The source
indexes `memory` with no check of its own; Rust's array indexing panics when
pc+1 ≥ MEM_SIZE. -/
def extract_opcode (s : Interp) : StepResult Nat :=
  if s.pc + 1 < MEM_SIZE then .ok (s.memory s.pc * 256 + s.memory (s.pc + 1))
  else .panicked

/-- Opcode 00E0 -/
def cls (s : Interp) : Interp :=
  pcNext { s with platform := clear_screen s.platform }

/-- Opcode 6xnn -/
def set_reg (s : Interp) (x nn : Nat) : Interp := pcNext (setReg s x nn)

/-- Annn -/
def set_i (s : Interp) (addr : Nat) : Interp :=
  pcNext { s with index_register := addr }

/-- Opcode 1nnn -/
def jmp (s : Interp) (nnn : Nat) : Interp := { s with pc := nnn }

/-- Dxyn: `Sprite::new(&memory[I..I+n])` panics when the slice end I+n
exceeds MEM_SIZE; otherwise draw through the platform, store the collision
flag in VF, step the pc. -/
def draw (s : Interp) (x y n : Nat) : StepResult Interp :=
  if s.index_register + n ≤ MEM_SIZE then
    let r := draw_sprite s.platform (getReg s x) (getReg s y)
      (fun i => s.memory (s.index_register + i)) n
    .ok (pcNext (setReg { s with platform := r.1 } 15 (if r.2 then 1 else 0)))
  else .panicked

/-- Opcode 7xnn: `wrapping_add`. -/
def add_value (s : Interp) (x nn : Nat) : Interp :=
  pcNext (setReg s x ((getReg s x + nn) % 256))

/-- Opcode 3xnn -/
def skip_if_eq (s : Interp) (x nn : Nat) : Interp :=
  if getReg s x = nn then pcSkip s else pcNext s

/-- Opcode 4xnn -/
def skip_if_neq (s : Interp) (x nn : Nat) : Interp :=
  if getReg s x = nn then pcNext s else pcSkip s

/-- Opcode 5xy0 -/
def skip_if_reg_eq (s : Interp) (x y : Nat) : Interp :=
  if getReg s x = getReg s y then pcSkip s else pcNext s

/-- Opcode 9xy0 -/
def skip_if_reg_neq (s : Interp) (x y : Nat) : Interp :=
  if getReg s x = getReg s y then pcNext s else pcSkip s

/-- Opcode 2nnn: `sp.overflowing_add(1)` on a `usize` overflows only at USIZE_MAX;
in the non-overflow branch `call_stack[sp] = pc + 2` is an array access that
panics when sp ≥ STACK_SIZE. -/
def call (s : Interp) (nnn : Nat) : StepResult Interp :=
  if s.sp = USIZE_MAX then .fail .StackOverflow
  else if s.sp < STACK_SIZE then
    .ok { s with call_stack := upd s.call_stack s.sp (s.pc + 2),
                 sp := s.sp + 1, pc := nnn }
  else .panicked

/-- Opcode 00EE: `sp.overflowing_sub(1)` underflows exactly at sp = 0; otherwise
`call_stack[sp - 1]` panics when sp - 1 ≥ STACK_SIZE. -/
def ret (s : Interp) : StepResult Interp :=
  if s.sp = 0 then .fail .StackUnderflow
  else if s.sp - 1 < STACK_SIZE then
    .ok { s with sp := s.sp - 1, pc := s.call_stack (s.sp - 1) }
  else .panicked

/-- Opcode 8xy0 -/
def set_to_reg (s : Interp) (x y : Nat) : Interp :=
  pcNext (setReg s x (getReg s y))

/-- Opcode 8xy1: also clears VF. -/
def or (s : Interp) (x y : Nat) : Interp :=
  pcNext (setReg (setReg s x (Nat.lor (getReg s x) (getReg s y))) 15 0)

/-- Opcode 8xy2: also clears VF. -/
def and (s : Interp) (x y : Nat) : Interp :=
  pcNext (setReg (setReg s x (Nat.land (getReg s x) (getReg s y))) 15 0)

/-- Opcode 8xy3: also clears VF. -/
def xor (s : Interp) (x y : Nat) : Interp :=
  pcNext (setReg (setReg s x (Nat.xor (getReg s x) (getReg s y))) 15 0)

/-- Opcode 8xy4: u8 `overflowing_add`; result written to vx first, then the carry
flag to VF (so for x = 15 the flag write wins). -/
def add_to_reg (s : Interp) (x y : Nat) : Interp :=
  pcNext (setReg (setReg s x ((getReg s x + getReg s y) % 256)) 15
    (if 256 ≤ getReg s x + getReg s y then 1 else 0))

/-- Opcode 8xy5: u8 `overflowing_sub` vx - vy; VF = 0 on borrow else 1, written
after the result. -/
def sub (s : Interp) (x y : Nat) : Interp :=
  pcNext (setReg (setReg s x ((getReg s x + 256 - getReg s y) % 256)) 15
    (if getReg s x < getReg s y then 0 else 1))

/-- Opcode 8xy7: u8 `overflowing_sub` vy - vx stored in vx; VF = 0 on borrow else 1. -/
def sub_rev (s : Interp) (x y : Nat) : Interp :=
  pcNext (setReg (setReg s x ((getReg s y + 256 - getReg s x) % 256)) 15
    (if getReg s y < getReg s x then 0 else 1))

/-- Opcode 8xy6: reads vy before any write. -/
def shr (s : Interp) (x y : Nat) : Interp :=
  pcNext (setReg (setReg s x (getReg s y / 2)) 15 (getReg s y % 2))

/-- Opcode 8xyE: u8 `<< 1` truncates the high bit; VF = bit 7 of the original vy. -/
def shl (s : Interp) (x y : Nat) : Interp :=
  pcNext (setReg (setReg s x (getReg s y * 2 % 256)) 15 (getReg s y / 128))

/-- Fx65: registers 0..=x from memory[I..I+x]; the memory access panics when
I + x ≥ MEM_SIZE; afterwards I += x + 1. -/
def read (s : Interp) (x : Nat) : StepResult Interp :=
  if s.index_register + x < MEM_SIZE then
    let regs := (List.range (x + 1)).foldl
      (fun rs i => upd rs i (s.memory (s.index_register + i))) s.registers
    .ok (pcNext { s with registers := regs,
                         index_register := s.index_register + (x + 1) })
  else .panicked

/-- Fx55: memory[I..I+x] from registers 0..=x; panics when I + x ≥ MEM_SIZE;
afterwards I += x + 1. -/
def write (s : Interp) (x : Nat) : StepResult Interp :=
  if s.index_register + x < MEM_SIZE then
    let mem := (List.range (x + 1)).foldl
      (fun mm i => upd mm (s.index_register + i) (getReg s i)) s.memory
    .ok (pcNext { s with memory := mem,
                         index_register := s.index_register + (x + 1) })
  else .panicked

/-- Fx33: BCD digits of vx at memory[I], [I+1], [I+2]; panics when
I + 2 ≥ MEM_SIZE. -/
def dec (s : Interp) (x : Nat) : StepResult Interp :=
  if s.index_register + 2 < MEM_SIZE then
    let m1 := upd s.memory s.index_register (getReg s x / 100)
    let m2 := upd m1 (s.index_register + 1) (getReg s x % 100 / 10)
    let m3 := upd m2 (s.index_register + 2) (getReg s x % 10)
    .ok (pcNext { s with memory := m3 })
  else .panicked

/-- Fx1E: I += vx, plain usize addition, no 12-bit reduction. -/
def incr_i (s : Interp) (x : Nat) : Interp :=
  pcNext { s with index_register := s.index_register + getReg s x }

/-- Ex9E: `Nibble::try_from(registers[x]).unwrap()` — the conversion fails
for values ≥ 16 and the `unwrap` then panics (modelled from the spec: the
data module's validated conversion is not under src/). When it succeeds the
key is ≤ KEYPAD_LAST, so the InvalidKey arm of the source is unreachable. -/
def key_down (s : Interp) (x : Nat) : StepResult Interp :=
  if getReg s x < 16 then
    .ok (if is_key_down s.platform (getReg s x) then pcSkip s else pcNext s)
  else .panicked

/-- ExA1: same conversion as Ex9E, skip when the key is not pressed. -/
def key_up (s : Interp) (x : Nat) : StepResult Interp :=
  if getReg s x < 16 then
    .ok (if is_key_down s.platform (getReg s x) then pcNext s else pcSkip s)
  else .panicked

/-- Fx15 -/
def set_delay_timer (s : Interp) (x : Nat) : Interp :=
  pcNext { s with platform := { s.platform with delay_timer := getReg s x } }

/-- Fx07 -/
def get_delay_timer (s : Interp) (x : Nat) : Interp :=
  pcNext (setReg s x s.platform.delay_timer)

/-- Fx18: the source passes `x.as_u8()` — the register index itself, not the
register's value. -/
def set_sound_timer (s : Interp) (x : Nat) : Interp :=
  pcNext { s with platform := { s.platform with sound_timer := x } }

/-- Fx0A: scan keys 0..15; each pressed key writes its index into
`memory[x]` (the source writes memory, not a register) and sets the flag;
without any pressed key the function returns with the pc unchanged,
otherwise the pc steps. x < 16 < MEM_SIZE, so the access cannot panic. -/
def wait_for_key (s : Interp) (x : Nat) : Interp :=
  let st := (List.range 16).foldl
    (fun (st : (Nat → Nat) × Bool) i =>
      if is_key_down s.platform i then (upd st.1 x i, true) else st)
    (s.memory, false)
  let s1 := { s with memory := st.1 }
  if st.2 then pcNext s1 else s1

/-- Bnnn: `Address + i16` then `as_usize`. Modelled from the spec: the data
module's Address addition is not under src/; an Address keeps the invariant
of staying below MEM_SIZE, so the sum is reduced mod MEM_SIZE. -/
def jmp_v0 (s : Interp) (nnn : Nat) : Interp :=
  { s with pc := (nnn + getReg s 0) % MEM_SIZE }

/-- Cxnn -/
def set_rng (s : Interp) (x nn : Nat) : Interp :=
  let r := get_random_word s.platform
  pcNext (setReg { s with platform := r.2 } x (Nat.land r.1 nn))

/-- Fx29 -/
def set_sprite (s : Interp) (x : Nat) : Interp :=
  pcNext { s with index_register := getReg s x * 5 }

/-- The decoded instruction set (enum `Operation` in interpreter.rs).
Operand fields are the decoded values; the decoder only produces values
below 16 for register/nibble fields and below 4096 for addresses. -/
inductive Operation where
  | ClearScreen : Operation
  | Return : Operation
  | Jump : Nat → Operation
  | Call : Nat → Operation
  | SkipIfEqual : Nat → Nat → Operation
  | SkipIfNotEqual : Nat → Nat → Operation
  | SkipIfRegistersEqual : Nat → Nat → Operation
  | SetRegister : Nat → Nat → Operation
  | AddValue : Nat → Nat → Operation
  | SetToRegister : Nat → Nat → Operation
  | Or : Nat → Nat → Operation
  | And : Nat → Nat → Operation
  | Xor : Nat → Nat → Operation
  | AddRegister : Nat → Nat → Operation
  | SubRegister : Nat → Nat → Operation
  | ShiftRight : Nat → Nat → Operation
  | SubRegisterReversed : Nat → Nat → Operation
  | ShiftLeft : Nat → Nat → Operation
  | SkipIfRegistersNotEqual : Nat → Nat → Operation
  | SetIndexRegister : Nat → Operation
  | JumpV0 : Nat → Operation
  | SetToRandom : Nat → Nat → Operation
  | Draw : Nat → Nat → Nat → Operation
  | SkipIfKeyDown : Nat → Operation
  | SkipIfKeyUp : Nat → Operation
  | GetDelayTimer : Nat → Operation
  | WaitForKey : Nat → Operation
  | SetDelayTimer : Nat → Operation
  | SetSoundTimer : Nat → Operation
  | IncrementIndexRegister : Nat → Operation
  | SetIndexRegisterToSprite : Nat → Operation
  | ToDecimal : Nat → Operation
  | WriteMemory : Nat → Operation
  | ReadMemory : Nat → Operation
deriving DecidableEq, Repr

/-- Source `OpCode::extract_nibble(i)`: the i-th 4-bit field, i = 0 lowest.
Modelled from the spec: the data module is not under src/ ("split it into
four 4-bit fields"). -/
def nib (c i : Nat) : Nat := c / 16 ^ i % 16

/-- Source `RegisterIndex::try_from` / `Nibble::try_from`: validated conversion,
failing for values outside [0, 16). Modelled from the spec: the data module
is not under src/ ("constructed by validated conversion"). -/
def tryNibble (n : Nat) : Except Error Nat :=
  if n < 16 then .ok n else .error .ConversionFailed

/-- Source `impl TryFrom<OpCode> for Operation`: the arms are in source order;
`nibbles` as matched there is [high, ..., low], `nn` the low byte, `nnn` the
low 12 bits. Unmatched words give `UnknownOpCode` with the raw word. -/
def decode (c : Nat) : Except Error Operation :=
  let n3 := nib c 3
  let n2 := nib c 2
  let n1 := nib c 1
  let n0 := nib c 0
  let nn := c % 256
  let nnn := c % 4096
  match n3, n2, n1, n0 with
  | 0x0, 0x0, 0xE, 0x0 => pure .ClearScreen
  | 0x6, x, _, _ => do pure (.SetRegister (← tryNibble x) nn)
  | 0xA, _, _, _ => pure (.SetIndexRegister nnn)
  | 0x1, _, _, _ => pure (.Jump nnn)
  | 0xD, x, y, n => do pure (.Draw (← tryNibble x) (← tryNibble y) (← tryNibble n))
  | 0x7, x, _, _ => do pure (.AddValue (← tryNibble x) nn)
  | 0x3, x, _, _ => do pure (.SkipIfEqual (← tryNibble x) nn)
  | 0x4, x, _, _ => do pure (.SkipIfNotEqual (← tryNibble x) nn)
  | 0x5, x, y, 0x0 => do pure (.SkipIfRegistersEqual (← tryNibble x) (← tryNibble y))
  | 0x9, x, y, 0x0 => do pure (.SkipIfRegistersNotEqual (← tryNibble x) (← tryNibble y))
  | 0x2, _, _, _ => pure (.Call nnn)
  | 0x0, 0x0, 0xE, 0xE => pure .Return
  | 0x8, x, y, 0x0 => do pure (.SetToRegister (← tryNibble x) (← tryNibble y))
  | 0x8, x, y, 0x1 => do pure (.Or (← tryNibble x) (← tryNibble y))
  | 0x8, x, y, 0x2 => do pure (.And (← tryNibble x) (← tryNibble y))
  | 0x8, x, y, 0x3 => do pure (.Xor (← tryNibble x) (← tryNibble y))
  | 0x8, x, y, 0x4 => do pure (.AddRegister (← tryNibble x) (← tryNibble y))
  | 0x8, x, y, 0x5 => do pure (.SubRegister (← tryNibble x) (← tryNibble y))
  | 0x8, x, y, 0x7 => do pure (.SubRegisterReversed (← tryNibble x) (← tryNibble y))
  | 0x8, x, y, 0x6 => do pure (.ShiftRight (← tryNibble x) (← tryNibble y))
  | 0x8, x, y, 0xE => do pure (.ShiftLeft (← tryNibble x) (← tryNibble y))
  | 0xF, x, 0x6, 0x5 => do pure (.ReadMemory (← tryNibble x))
  | 0xF, x, 0x5, 0x5 => do pure (.WriteMemory (← tryNibble x))
  | 0xF, x, 0x3, 0x3 => do pure (.ToDecimal (← tryNibble x))
  | 0xF, x, 0x1, 0xE => do pure (.IncrementIndexRegister (← tryNibble x))
  | 0xE, x, 0x9, 0xE => do pure (.SkipIfKeyDown (← tryNibble x))
  | 0xE, x, 0xA, 0x1 => do pure (.SkipIfKeyUp (← tryNibble x))
  | 0xF, x, 0x1, 0x5 => do pure (.SetDelayTimer (← tryNibble x))
  | 0xF, x, 0x0, 0x7 => do pure (.GetDelayTimer (← tryNibble x))
  | 0xF, x, 0x1, 0x8 => do pure (.SetSoundTimer (← tryNibble x))
  | 0xB, _, _, _ => pure (.JumpV0 nnn)
  | 0xF, x, 0x0, 0xA => do pure (.WaitForKey (← tryNibble x))
  | 0xC, x, _, _ => do pure (.SetToRandom (← tryNibble x) nn)
  | 0xF, x, 0x2, 0x9 => do pure (.SetIndexRegisterToSprite (← tryNibble x))
  | _, _, _, _ => .error (.UnknownOpCode c)

/-- The dispatch of `run_next_instruction`, one arm per operation. -/
def exec (op : Operation) (s : Interp) : StepResult Interp :=
  match op with
  | .ClearScreen => .ok (cls s)
  | .Jump a => .ok (jmp s a)
  | .SetRegister x nn => .ok (set_reg s x nn)
  | .SetIndexRegister a => .ok (set_i s a)
  | .Draw x y n => draw s x y n
  | .AddValue x nn => .ok (add_value s x nn)
  | .SkipIfEqual x nn => .ok (skip_if_eq s x nn)
  | .SkipIfNotEqual x nn => .ok (skip_if_neq s x nn)
  | .SkipIfRegistersEqual x y => .ok (skip_if_reg_eq s x y)
  | .SkipIfRegistersNotEqual x y => .ok (skip_if_reg_neq s x y)
  | .Call nnn => call s nnn
  | .Return => ret s
  | .SetToRegister x y => .ok (set_to_reg s x y)
  | .Or x y => .ok (or s x y)
  | .And x y => .ok (and s x y)
  | .Xor x y => .ok (xor s x y)
  | .AddRegister x y => .ok (add_to_reg s x y)
  | .SubRegister x y => .ok (sub s x y)
  | .SubRegisterReversed x y => .ok (sub_rev s x y)
  | .ShiftRight x y => .ok (shr s x y)
  | .ShiftLeft x y => .ok (shl s x y)
  | .ReadMemory x => read s x
  | .WriteMemory x => write s x
  | .ToDecimal x => dec s x
  | .IncrementIndexRegister x => .ok (incr_i s x)
  | .SkipIfKeyDown x => key_down s x
  | .SkipIfKeyUp x => key_up s x
  | .SetDelayTimer x => .ok (set_delay_timer s x)
  | .GetDelayTimer x => .ok (get_delay_timer s x)
  | .SetSoundTimer x => .ok (set_sound_timer s x)
  | .JumpV0 nnn => .ok (jmp_v0 s nnn)
  | .WaitForKey x => .ok (wait_for_key s x)
  | .SetToRandom x nn => .ok (set_rng s x nn)
  | .SetIndexRegisterToSprite x => .ok (set_sprite s x)

/-- Source `Interpreter::run_next_instruction`: fetch (may panic), decode, execute;
every decode error is replaced by `Error::Crashed` before being returned. -/
def run_next_instruction (s : Interp) : StepResult Interp :=
  match extract_opcode s with
  | .ok code =>
    match decode code with
    | .ok op => exec op s
    | .error _ => .fail .Crashed
  | .fail e => .fail e
  | .panicked => .panicked

/-- Run n consecutive instructions, stopping at the first error or panic. -/
def stepN : Nat → Interp → StepResult Interp
  | 0, s => .ok s
  | n + 1, s =>
    match run_next_instruction s with
    | .ok s1 => stepN n s1
    | .fail e => .fail e
    | .panicked => .panicked

def getOkI (r : StepResult Interp) : Interp :=
  match r with
  | .ok s => s
  | _ => Interp.empty

/-- The real-time scheduler (`ManagedInterpreter` in managed_interpreter.rs).
Durations are Nats counting nanoseconds, matching `core::time::Duration`
arithmetic on the paths the source takes (all its subtractions are guarded
by minimality, so they never underflow). -/
structure ManagedInterpreter where
  inner : Interp
  operation_duration : Nat
  delay_tick_duration : Nat
  sound_tick_duration : Nat

/-- Source `Duration::from_millis(2)` in nanoseconds. -/
def DEFAULT_OPERATION_DURATION : Nat := 2000000

/-- Source `Duration::from_nanos(16666667)`. -/
def DEFAULT_DELAY_TICK_DURATION : Nat := 16666667

/-- Source `Duration::from_nanos(16666667)`. -/
def DEFAULT_SOUND_TICK_DURATION : Nat := 16666667

/-- Source `ManagedInterpreter::new_with_durations`: stores the three configured
periods as the initial countdowns. -/
def new_with_durations (entry : Nat) (mem : Nat → Nat) (rand : Nat → Nat)
    (operation_duration delay_tick_duration sound_tick_duration : Nat) :
    ManagedInterpreter :=
  { inner := Interp.new entry mem (ManagedPlatform.new rand),
    operation_duration := operation_duration,
    delay_tick_duration := delay_tick_duration,
    sound_tick_duration := sound_tick_duration }

/-- Source `ManagedInterpreter::new`: the defaults. -/
def ManagedInterpreter.new (entry : Nat) (mem : Nat → Nat)
    (rand : Nat → Nat) : ManagedInterpreter :=
  new_with_durations entry mem rand DEFAULT_OPERATION_DURATION
    DEFAULT_DELAY_TICK_DURATION DEFAULT_SOUND_TICK_DURATION

/-- Source `ManagedInterpreter::decrement_delay_timer`, acting on the wrapped
interpreter state (the countdown fields are untouched by it): decrement the
delay timer by 1 if nonzero, flooring at 0. -/
def delay_tick (i : Interp) : Interp :=
  if 0 < i.platform.delay_timer then
    { i with platform :=
        { i.platform with delay_timer := i.platform.delay_timer - 1 } }
  else i

/-- Source `ManagedInterpreter::decrement_sound_timer`, acting on the wrapped
interpreter state. -/
def sound_tick (i : Interp) : Interp :=
  if 0 < i.platform.sound_timer then
    { i with platform :=
        { i.platform with sound_timer := i.platform.sound_timer - 1 } }
  else i

/-- Source `ManagedInterpreter::simulate_one_instruction`: run one instruction on
the wrapped interpreter. -/
def simulate_one_instruction (m : ManagedInterpreter) :
    StepResult ManagedInterpreter :=
  match run_next_instruction m.inner with
  | .ok s => .ok { m with inner := s }
  | .fail e => .fail e
  | .panicked => .panicked

/-- The smallest of the three countdowns, as computed at the top of the
`simulate_duration` loop. -/
def minCD (m : ManagedInterpreter) : Nat :=
  min m.delay_tick_duration (min m.sound_tick_duration m.operation_duration)

/-- The break branch of the loop: subtract the remaining duration from all
three countdowns. -/
def subAllCD (m : ManagedInterpreter) (d : Nat) : ManagedInterpreter :=
  { m with delay_tick_duration := m.delay_tick_duration - d,
           sound_tick_duration := m.sound_tick_duration - d,
           operation_duration := m.operation_duration - d }

/-- One firing iteration of the `simulate_duration` loop body (the part after
the break test), with `min_dur` the minimum countdown: when `min_dur` equals
the delay countdown, tick the delay timer, reset the delay countdown to
DEFAULT_DELAY_TICK_DURATION, tick the sound timer and reset the sound
countdown to DEFAULT_SOUND_TICK_DURATION (the sound countdown has no firing
test of its own); otherwise subtract `min_dur` from both. Then, when
`min_dur` equals the operation countdown, run one instruction (propagating
its error) and reset that countdown to DEFAULT_OPERATION_DURATION, else
subtract. The operation countdown is untouched by the first branch, so
comparing against `m.operation_duration` matches the source. -/
def fireStep : ManagedInterpreter → Nat → StepResult ManagedInterpreter
  | ⟨i, op, dd, sd⟩, min_dur =>
    let q : Interp × Nat × Nat :=
      if min_dur = dd then
        (sound_tick (delay_tick i), DEFAULT_DELAY_TICK_DURATION,
         DEFAULT_SOUND_TICK_DURATION)
      else (i, dd - min_dur, sd - min_dur)
    if min_dur = op then
      match run_next_instruction q.1 with
      | .ok s => .ok ⟨s, DEFAULT_OPERATION_DURATION, q.2.1, q.2.2⟩
      | .fail e => .fail e
      | .panicked => .panicked
    else .ok ⟨q.1, op - min_dur, q.2.1, q.2.2⟩

/-- Outcome of `simulate_duration` under a fuel bound on loop iterations:
`out` means the fuel ran out (the source loop can in fact fail to
terminate when a countdown gets stuck at zero). -/
inductive RunRes where
  | ok : ManagedInterpreter → RunRes
  | fail : Error → RunRes
  | panicked : RunRes
  | out : RunRes

/-- Source `ManagedInterpreter::simulate_duration` (the scheduler's `advance`),
with explicit fuel counting loop iterations. -/
def simulate_duration : Nat → ManagedInterpreter → Nat → RunRes
  | 0, _, _ => .out
  | fuel + 1, m, duration =>
    if duration < minCD m then .ok (subAllCD m duration)
    else
      match fireStep m (minCD m) with
      | .ok m1 => simulate_duration fuel m1 (duration - minCD m)
      | .fail e => .fail e
      | .panicked => .panicked

def getOkM (r : RunRes) : ManagedInterpreter :=
  match r with
  | .ok m => m
  | _ => { inner := Interp.empty, operation_duration := 0,
           delay_tick_duration := 0, sound_tick_duration := 0 }

def isOkM (r : RunRes) : Bool :=
  match r with
  | .ok _ => true
  | _ => false

/-! Concrete machine states used by the claim theorems below. -/

/-- Memory holding the word 0x2200 (CALL 0x200) at every even address;
pc starts at 0x200, so every fetched instruction is `CALL 0x200`. -/
def callLoopState : Interp :=
  { Interp.empty with
      memory := fun i => if i % 2 = 0 then 0x22 else 0x00, pc := 0x200 }

/-- Memory holding the word 0x00EE (RET) at every even address. -/
def retState : Interp :=
  { Interp.empty with
      memory := fun i => if i % 2 = 0 then 0x00 else 0xEE, pc := 0x200 }

/-- Memory holding 0xFF everywhere: every fetched word is 0xFFFF, which
matches no instruction shape. -/
def badOpcodeState : Interp :=
  { Interp.empty with memory := fun _ => 0xFF, pc := 0x200 }

/-- Registers with v15 = 1, all others 0. -/
def vfAliasState : Interp :=
  { Interp.empty with registers := fun i => if i = 15 then 1 else 0 }

/-- Registers with v1 = 200 and v2 = 100. -/
def arithWitnessState : Interp :=
  { Interp.empty with
      registers := fun i => if i = 1 then 200 else if i = 2 then 100 else 0 }

/-- A scheduler built by `new_with_durations` with configured periods
operation = 100, delay = 5, sound = 9 (nanoseconds), whose timers are then
delay = 2, sound = 7. -/
def schedCfgBase : ManagedInterpreter :=
  new_with_durations 0x200 (fun _ => 0) (fun _ => 0) 100 5 9

def schedDelayFire : ManagedInterpreter :=
  { schedCfgBase with inner := { schedCfgBase.inner with platform :=
      { schedCfgBase.inner.platform with delay_timer := 2, sound_timer := 7 } } }

/-- A scheduler with configured periods operation = 3, delay = 50,
sound = 60, whose program is `JP 0x200` at every even address (a harmless
self-loop). -/
def schedOpFire : ManagedInterpreter :=
  new_with_durations 0x200 (fun i => if i % 2 = 0 then 0x12 else 0x00)
    (fun _ => 0) 3 50 60

/-- Keypad with keys 3 and 7 pressed. -/
def keys37Platform : ManagedPlatform :=
  { ManagedPlatform.new (fun _ => 0) with
      keypad := fun i => i = 3 || i = 7 }

/-- No key pressed; v0 = 99. -/
def waitNoKeyState : Interp :=
  { Interp.empty with
      registers := fun i => if i = 0 then 99 else 0, pc := 0x200 }

/-- Keys 3 and 7 pressed; v0 = 99. -/
def waitKeyState : Interp := { waitNoKeyState with platform := keys37Platform }

/-- v0 = 16: a register value one past the highest valid key index. -/
def keyOutOfRangeState : Interp :=
  { Interp.empty with registers := fun i => if i = 0 then 16 else 0 }

/-- v0 = 5, key 5 pressed. -/
def keyPressedState : Interp :=
  { Interp.empty with
      registers := fun i => if i = 0 then 5 else 0,
      platform := { ManagedPlatform.new (fun _ => 0) with
                      keypad := fun i => i = 5 } }

/-- v2 = 77; the platform's delay timer is 33. -/
def timerState : Interp :=
  { Interp.empty with
      registers := fun i => if i = 2 then 77 else 0,
      platform := { ManagedPlatform.new (fun _ => 0) with delay_timer := 33 },
      pc := 0x200 }

/-- Index register 4000, v0 = 200: Fx1E pushes I to 4200 ≥ 4096. -/
def indexOverState : Interp :=
  { Interp.empty with
      index_register := 4000,
      registers := fun i => if i = 0 then 200 else 0 }

/-! Claim theorems. -/

/-- Claim C1 (code bug): from a fresh stack, 16 consecutive CALLs succeed,
each pushing pc+2 = 0x202 and jumping to 0x200, and a RET with an empty
call stack fails with StackUnderflow — but the 17th CALL panics on the
out-of-bounds write `call_stack[16]` instead of returning the
StackOverflow error, because `sp.overflowing_add(1)` only overflows at
USIZE_MAX. -/
theorem call_overflow_behavior :
    isOkR (stepN 16 callLoopState) = true ∧
    (getOkI (stepN 16 callLoopState)).sp = 16 ∧
    (getOkI (stepN 16 callLoopState)).pc = 0x200 ∧
    (getOkI (stepN 16 callLoopState)).call_stack 0 = 0x202 ∧
    (getOkI (stepN 16 callLoopState)).call_stack 15 = 0x202 ∧
    stepN 17 callLoopState = .panicked ∧
    run_next_instruction retState = .fail .StackUnderflow :=
  ⟨rfl, rfl, rfl, rfl, rfl, rfl, rfl⟩

/-- Claim C2 (code bug): the word 0xFFFF matches no instruction shape and
decoding it fails with `UnknownOpCode 0xFFFF`, carrying the raw word — but
`run_next_instruction` replaces every decode error with `Error.Crashed`,
which carries nothing, so the caller never sees the unrecognized-opcode
error. -/
theorem unknown_opcode_error_swallowed :
    decode 0xFFFF = .error (.UnknownOpCode 0xFFFF) ∧
    extract_opcode badOpcodeState = .ok 0xFFFF ∧
    run_next_instruction badOpcodeState = .fail .Crashed :=
  ⟨rfl, rfl, rfl⟩

/-- Claim C3 counterexample: with v15 = 1, `ADD V15,V15` (x = y = 15,
a = b = 1) leaves v15 = 0 — the flag value — not (1+1) mod 256 = 2 as the
claim demands, because the flag write to VF overwrites the stored sum. -/
theorem arith_flag_law_cex :
    getReg vfAliasState 15 = 1 ∧
    (((add_to_reg vfAliasState 15 15).registers 15 =
      (getReg vfAliasState 15 + getReg vfAliasState 15) % 256) ↔ False) := by
  decide

/-- Claim C3 (amended): for destination registers other than VF, ADD stores
(a+b) mod 256 in vx with VF = 1 iff a+b ≥ 256; SUB stores (a-b) mod 256
with VF = 1 iff no borrow (b ≤ a); SUBN stores (b-a) mod 256 with VF = 1
iff no borrow (a ≤ b); each advances the pc by 2. (When x = 15 the final
flag write overwrites the stored result.) -/
theorem arith_flag_law_amended (s : Interp) (x y : Nat) (hx : x ≠ 15)
    (ha : getReg s x < 256) (hb : getReg s y < 256) :
    ((add_to_reg s x y).registers x = (getReg s x + getReg s y) % 256 ∧
     (add_to_reg s x y).registers 15 =
       (if 256 ≤ getReg s x + getReg s y then 1 else 0) ∧
     (add_to_reg s x y).pc = s.pc + 2) ∧
    ((sub s x y).registers x = (getReg s x + 256 - getReg s y) % 256 ∧
     (sub s x y).registers 15 = (if getReg s y ≤ getReg s x then 1 else 0) ∧
     (sub s x y).pc = s.pc + 2) ∧
    ((sub_rev s x y).registers x = (getReg s y + 256 - getReg s x) % 256 ∧
     (sub_rev s x y).registers 15 = (if getReg s x ≤ getReg s y then 1 else 0) ∧
     (sub_rev s x y).pc = s.pc + 2) := by
  refine ⟨⟨?_, ?_, rfl⟩, ⟨?_, ?_, rfl⟩, ⟨?_, ?_, rfl⟩⟩ <;>
    (simp [add_to_reg, sub, sub_rev, pcNext, setReg, getReg, upd, hx] <;>
      try (split_ifs <;> omega))

/-- Claim C3 witness: the amended law evaluated at v1 = 200, v2 = 100. -/
theorem arith_flag_law_witness :
    ((add_to_reg arithWitnessState 1 2).registers 1 =
       (getReg arithWitnessState 1 + getReg arithWitnessState 2) % 256 ∧
     (add_to_reg arithWitnessState 1 2).registers 15 =
       (if 256 ≤ getReg arithWitnessState 1 + getReg arithWitnessState 2
        then 1 else 0) ∧
     (add_to_reg arithWitnessState 1 2).pc = arithWitnessState.pc + 2) ∧
    ((sub arithWitnessState 1 2).registers 1 =
       (getReg arithWitnessState 1 + 256 - getReg arithWitnessState 2) % 256 ∧
     (sub arithWitnessState 1 2).registers 15 =
       (if getReg arithWitnessState 2 ≤ getReg arithWitnessState 1
        then 1 else 0) ∧
     (sub arithWitnessState 1 2).pc = arithWitnessState.pc + 2) ∧
    ((sub_rev arithWitnessState 1 2).registers 1 =
       (getReg arithWitnessState 2 + 256 - getReg arithWitnessState 1) % 256 ∧
     (sub_rev arithWitnessState 1 2).registers 15 =
       (if getReg arithWitnessState 1 ≤ getReg arithWitnessState 2
        then 1 else 0) ∧
     (sub_rev arithWitnessState 1 2).pc = arithWitnessState.pc + 2) :=
  arith_flag_law_amended arithWitnessState 1 2 (by decide) (by decide)
    (by decide)

/-- Claim C4 (code bug): advancing `schedDelayFire` (configured periods
operation = 100, delay = 5, sound = 9; timers delay = 2, sound = 7) by 5 ns
fires only the delay countdown, yet the code also decrements the sound
timer (7 → 6) and resets the sound countdown — and both countdowns are
reset to the DEFAULT constants, not to the periods 5 and 9 configured via
`new_with_durations`. Advancing `schedOpFire` (operation period 3) by 3 ns
fires the instruction countdown and resets it to
DEFAULT_OPERATION_DURATION = 2000000, not to the configured 3. -/
theorem scheduler_tick_bug :
    isOkM (simulate_duration 2 schedDelayFire 5) = true ∧
    (getOkM (simulate_duration 2 schedDelayFire 5)).inner.platform.delay_timer
      = 1 ∧
    (getOkM (simulate_duration 2 schedDelayFire 5)).inner.platform.sound_timer
      = 6 ∧
    (getOkM (simulate_duration 2 schedDelayFire 5)).delay_tick_duration
      = DEFAULT_DELAY_TICK_DURATION ∧
    (getOkM (simulate_duration 2 schedDelayFire 5)).sound_tick_duration
      = DEFAULT_SOUND_TICK_DURATION ∧
    (getOkM (simulate_duration 2 schedDelayFire 5)).operation_duration = 95 ∧
    isOkM (simulate_duration 2 schedOpFire 3) = true ∧
    (getOkM (simulate_duration 2 schedOpFire 3)).operation_duration
      = DEFAULT_OPERATION_DURATION ∧
    (getOkM (simulate_duration 2 schedOpFire 3)).delay_tick_duration = 47 ∧
    (getOkM (simulate_duration 2 schedOpFire 3)).sound_tick_duration = 57 :=
  ⟨rfl, rfl, rfl, rfl, rfl, rfl, rfl, rfl, rfl, rfl⟩

/-- Claim C6 (code bug): with no key pressed, Fx0A leaves the whole state
unchanged (pc, registers, memory). With keys 3 and 7 pressed it advances
the pc by 2 and the highest pressed index wins — but the index 7 is written
into `memory[x]`, not into register vx: v0 keeps its old value 99. -/
theorem wait_for_key_bug :
    wait_for_key waitNoKeyState 0 = waitNoKeyState ∧
    (wait_for_key waitKeyState 0).pc = waitKeyState.pc + 2 ∧
    (wait_for_key waitKeyState 0).memory 0 = 7 ∧
    (wait_for_key waitKeyState 0).registers 0 = 99 ∧
    (wait_for_key waitKeyState 0).registers = waitKeyState.registers :=
  ⟨rfl, rfl, rfl, rfl, rfl⟩

/-- Claim C7 (code bug): with vx = 5 ≤ 15 the key tests succeed and skip or
step according to the pressed state; but with vx = 16 both Ex9E and ExA1
panic in `Nibble::try_from(...).unwrap()` instead of returning the
recoverable `InvalidKey` error (whose arm in the source is unreachable). -/
theorem key_test_panics :
    key_down keyPressedState 0 = .ok (pcSkip keyPressedState) ∧
    key_up keyPressedState 0 = .ok (pcNext keyPressedState) ∧
    key_down keyOutOfRangeState 0 = .panicked ∧
    key_up keyOutOfRangeState 0 = .panicked :=
  ⟨rfl, rfl, rfl, rfl⟩

/-- Claim C8 (code bug): with v2 = 77 and delay timer 33, Fx07 loads 33
into v2 and Fx15 stores 77 into the delay timer, each stepping the pc —
but Fx18 sets the sound timer to the register index 2 (`x.as_u8()`), not
to the register value 77. -/
theorem timer_access_bug :
    (get_delay_timer timerState 2).registers 2 = 33 ∧
    (get_delay_timer timerState 2).pc = timerState.pc + 2 ∧
    (set_delay_timer timerState 2).platform.delay_timer = 77 ∧
    (set_delay_timer timerState 2).pc = timerState.pc + 2 ∧
    (set_sound_timer timerState 2).platform.sound_timer = 2 ∧
    (set_sound_timer timerState 2).pc = timerState.pc + 2 :=
  ⟨rfl, rfl, rfl, rfl, rfl, rfl⟩

/-- Claim C9 counterexample: with I = 4000 < 4096 and v0 = 200, Fx1E leaves
I = 4200, outside the 12-bit range — the claimed invariant fails. -/
theorem index_register_cex :
    indexOverState.index_register < MEM_SIZE ∧
    ((incr_i indexOverState 0).index_register < MEM_SIZE ↔ False) := by
  decide

/-- Claim C9 (amended): the index register is advanced with no 12-bit
reduction: Fx1E sets it to exactly I + vx (so it stays below 4096 iff
I + vx < 4096), and Fx55/Fx65, when they complete without a memory-bounds
panic, set it to exactly I + x + 1, which can itself reach 4096. -/
theorem index_register_amended (s : Interp) (x : Nat) (sw sr : Interp)
    (hw : write s x = .ok sw) (hr : read s x = .ok sr) :
    (incr_i s x).index_register = s.index_register + getReg s x ∧
    ((incr_i s x).index_register < MEM_SIZE ↔
      s.index_register + getReg s x < MEM_SIZE) ∧
    sw.index_register = s.index_register + (x + 1) ∧
    sr.index_register = s.index_register + (x + 1) := by
  refine ⟨rfl, Iff.rfl, ?_, ?_⟩
  · unfold write at hw
    split at hw
    · cases hw
      rfl
    · cases hw
  · unfold read at hr
    split at hr
    · cases hr
      rfl
    · cases hr

/-- Claim C9 witness: the amended statement at the empty state with x = 0,
where Fx55 and Fx65 both succeed. -/
theorem index_register_witness :
    (incr_i Interp.empty 0).index_register =
      Interp.empty.index_register + getReg Interp.empty 0 ∧
    ((incr_i Interp.empty 0).index_register < MEM_SIZE ↔
      Interp.empty.index_register + getReg Interp.empty 0 < MEM_SIZE) ∧
    (getOkI (write Interp.empty 0)).index_register =
      Interp.empty.index_register + (0 + 1) ∧
    (getOkI (read Interp.empty 0)).index_register =
      Interp.empty.index_register + (0 + 1) :=
  index_register_amended Interp.empty 0 (getOkI (write Interp.empty 0))
    (getOkI (read Interp.empty 0)) rfl rfl

/-! Split-invariance of the scheduler (claim C5). The key observation: a
break with remaining duration u subtracts u from all three countdowns, and a
later call sees the same upcoming events shifted by u. -/

theorem minCD_subAllCD (m : ManagedInterpreter) (u : Nat) :
    minCD (subAllCD m u) = minCD m - u := by
  obtain ⟨i, op, dd, sd⟩ := m
  simp only [minCD, subAllCD]
  omega

theorem subAllCD_subAllCD (m : ManagedInterpreter) (u v : Nat) :
    subAllCD (subAllCD m u) v = subAllCD m (u + v) := by
  obtain ⟨i, op, dd, sd⟩ := m
  simp [subAllCD, ManagedInterpreter.mk.injEq]
  omega

theorem fireStep_shift (m : ManagedInterpreter) (u md : Nat)
    (hu : u < md) (hd : md ≤ m.delay_tick_duration)
    (hs : md ≤ m.sound_tick_duration) (ho : md ≤ m.operation_duration) :
    fireStep (subAllCD m u) (md - u) = fireStep m md := by
  obtain ⟨i, op, dd, sd⟩ := m
  change md ≤ dd at hd
  change md ≤ sd at hs
  change md ≤ op at ho
  have e1 : (md - u = dd - u) = (md = dd) := propext (by omega)
  have e2 : (md - u = op - u) = (md = op) := propext (by omega)
  simp only [subAllCD, fireStep, e1, e2]
  split_ifs with h1 h2 h2'
  · rcases hr : run_next_instruction (sound_tick (delay_tick i)) with s | e | _ <;>
      simp [hr]
  · rcases hr : run_next_instruction i with s | e | _ <;>
      simp [hr, ManagedInterpreter.mk.injEq] <;> omega
  · simp [ManagedInterpreter.mk.injEq]
    omega
  · simp [ManagedInterpreter.mk.injEq]
    omega

theorem simulate_duration_mono (f f' : Nat) (m : ManagedInterpreter)
    (u : Nat) (m' : ManagedInterpreter) (hle : f ≤ f')
    (h : simulate_duration f m u = .ok m') :
    simulate_duration f' m u = .ok m' := by
  induction f generalizing f' m u with
  | zero => simp [simulate_duration] at h
  | succ g ih =>
    cases f' with
    | zero => omega
    | succ g' =>
      simp only [simulate_duration] at h ⊢
      by_cases hb : u < minCD m
      · rw [if_pos hb] at h ⊢
        exact h
      · rw [if_neg hb] at h ⊢
        rcases hf : fireStep m (minCD m) with m1 | e | _ <;> rw [hf] at h
        · exact ih g' m1 (u - minCD m) (by omega) h
        · exact h
        · exact h

theorem simulate_duration_shift (f u1 u2 : Nat)
    (m m2 : ManagedInterpreter) (hu : u1 < minCD m)
    (h : simulate_duration f (subAllCD m u1) u2 = .ok m2) :
    simulate_duration f m (u1 + u2) = .ok m2 := by
  cases f with
  | zero => simp [simulate_duration] at h
  | succ g =>
    simp only [simulate_duration, minCD_subAllCD] at h ⊢
    by_cases hb : u2 < minCD m - u1
    · rw [if_pos hb] at h
      rw [if_pos (by omega), ← subAllCD_subAllCD]
      exact h
    · rw [if_neg hb] at h
      rw [if_neg (by omega)]
      have hd : minCD m ≤ m.delay_tick_duration := min_le_left _ _
      have hs : minCD m ≤ m.sound_tick_duration :=
        le_trans (min_le_right _ _) (min_le_left _ _)
      have ho : minCD m ≤ m.operation_duration :=
        le_trans (min_le_right _ _) (min_le_right _ _)
      rw [fireStep_shift m u1 (minCD m) hu hd hs ho] at h
      rcases hf : fireStep m (minCD m) with m1 | e | _ <;> rw [hf] at h
      · rw [show u1 + u2 - minCD m = u2 - (minCD m - u1) from by omega]
        exact h
      · exact h
      · exact h

/-- Claim C5: scheduler split-invariance. If advancing by d1 completes
normally and advancing the result by d2 completes normally, then a single
advance by d1 + d2 completes normally with the identical final state —
CPU, timers, frame buffer and countdown remainders alike (the random source
is a deterministic stream inside the state). Fuel counts loop iterations;
the combined run needs no more than the two runs together. -/
theorem simulate_duration_split (f1 f2 u1 u2 : Nat)
    (m m1 m2 : ManagedInterpreter)
    (h1 : simulate_duration f1 m u1 = .ok m1)
    (h2 : simulate_duration f2 m1 u2 = .ok m2) :
    simulate_duration (f1 + f2) m (u1 + u2) = .ok m2 := by
  induction f1 generalizing m u1 with
  | zero => simp [simulate_duration] at h1
  | succ g ih =>
    simp only [simulate_duration] at h1
    by_cases hb : u1 < minCD m
    · rw [if_pos hb] at h1
      injection h1 with h1e
      subst h1e
      exact simulate_duration_mono f2 (g + 1 + f2) m (u1 + u2) m2
        (by omega) (simulate_duration_shift f2 u1 u2 m m2 hb h2)
    · rw [if_neg hb] at h1
      rcases hf : fireStep m (minCD m) with mm | e | _ <;> rw [hf] at h1
      · have hrec := ih (u1 - minCD m) mm h1
        rw [show g + 1 + f2 = g + f2 + 1 from by omega]
        simp only [simulate_duration]
        rw [if_neg (by omega), hf,
          show u1 + u2 - minCD m = u1 - minCD m + u2 from by omega]
        exact hrec
      · exact absurd h1 (by simp)
      · exact absurd h1 (by simp)

/-- A scheduler state for the split-invariance witness: all three
countdowns configured to 10 ns. -/
def splitWitnessSched : ManagedInterpreter :=
  new_with_durations 0x200 (fun _ => 0) (fun _ => 0) 10 10 10

/-- Claim C5 witness: advancing by 2 then by 3 equals advancing by 5. -/
theorem simulate_duration_split_witness :
    simulate_duration (1 + 1) splitWitnessSched (2 + 3) =
      .ok (subAllCD (subAllCD splitWitnessSched 2) 3) :=
  simulate_duration_split 1 1 2 3 splitWitnessSched
    (subAllCD splitWitnessSched 2)
    (subAllCD (subAllCD splitWitnessSched 2) 3) rfl rfl

/-- Claim C10 (implicit): the fetch succeeds exactly when pc + 1 < MEM_SIZE
and never yields a recoverable error — past the end of memory it is a
panic (out-of-range access), as `run_next_instruction` at pc = MEM_SIZE
shows — and sequential stepping adds exactly 2 or 4 to any pc value, with
no bound or wraparound. -/
theorem fetch_bounds_pc (s : Interp) (p : Nat) :
    isOkR (extract_opcode s) = decide (s.pc + 1 < MEM_SIZE) ∧
    isFailR (extract_opcode s) = false ∧
    run_next_instruction { s with pc := MEM_SIZE } = .panicked ∧
    (pcNext { s with pc := p }).pc = p + 2 ∧
    (pcSkip { s with pc := p }).pc = p + 4 := by
  refine ⟨?_, ?_, rfl, rfl, rfl⟩ <;>
    · simp only [extract_opcode]
      split <;> simp_all [isOkR, isFailR]

end Chip8
